import Mathlib

/-
  Verification development for the rackspace-spot-exporter repository.

  The embedding models:
  - the collector (`src/collector.ts`): field extraction with JS `||`
    defaulting, gauge writes into a prom-client registry;
  - the API client (`src/api-client.ts`): token caching, the OAuth token
    exchange, the auth middleware and the three list calls;
  - the exporter scheduling loop (`index.ts`): the `isCollecting` overlap
    guard.

  JS `undefined`/`null` are both modelled as `none`; a JS object field that
  may be absent is an `Option`. Time is an `Int` of milliseconds, as
  returned by `Date.now()`.
-/

namespace RackspaceSpotExporter

/-- JS falsy-defaulting for optional string fields: models the expression
`v || d` where `v : string | null | undefined`. The empty string is falsy
in JS, so it also falls back to the default. -/
def jsOrStr : Option String → String → String
  | none, d => d
  | some s, d => if s = "" then d else s

/-- JS falsy-defaulting for optional numeric fields: models `v || d` where
`v : number | null | undefined`. `0` is falsy in JS, so it also falls back
to the default. -/
def jsOrInt : Option Int → Int → Int
  | none, d => d
  | some n, d => if n = 0 then d else n

/-! ### Resource data model (src/api-types.ts shapes, as used by the collector)

All fields are optional: absence models a missing/undefined/null JSON field. -/

structure ObjectMeta where
  name : Option String
deriving Repr, DecidableEq

structure CloudSpaceSpec where
  region : Option String
deriving Repr, DecidableEq

structure CloudSpaceStatus where
  /-- The key list of the `assignedServers` JSON object (`Object.keys` order);
  a JS object's keys are pairwise distinct. `none` models an absent map. -/
  assignedServers : Option (List String)
deriving Repr, DecidableEq

structure CloudSpace where
  metadata : Option ObjectMeta
  spec : Option CloudSpaceSpec
  status : Option CloudSpaceStatus
deriving Repr, DecidableEq

structure SpotNodePoolSpec where
  cloudSpace : Option String
  serverClass : Option String
  desired : Option Int
deriving Repr, DecidableEq

structure SpotNodePoolStatus where
  wonCount : Option Int
  bidStatus : Option String
deriving Repr, DecidableEq

structure SpotNodePool where
  metadata : Option ObjectMeta
  spec : Option SpotNodePoolSpec
  status : Option SpotNodePoolStatus
deriving Repr, DecidableEq

structure OnDemandNodePoolSpec where
  cloudSpace : Option String
  serverClass : Option String
  desired : Option Int
deriving Repr, DecidableEq

structure OnDemandNodePoolStatus where
  reservedCount : Option Int
  reservedStatus : Option String
deriving Repr, DecidableEq

structure OnDemandNodePool where
  metadata : Option ObjectMeta
  spec : Option OnDemandNodePoolSpec
  status : Option OnDemandNodePoolStatus
deriving Repr, DecidableEq

/-- A list-endpoint response body: `{ items?: [...] }`. The whole body may
itself be absent in the collector (`cloudSpaces?.items`), which the caller
models with an outer `Option`. -/
structure ListResponse (α : Type) where
  items : Option (List α)
deriving Repr, DecidableEq

/-! ### Registry model (prom-client)

A registry holds samples keyed by (metric name, label set). `Gauge.set` is
last-write-wins per key; we model it as prepending and reading the first
match, which gives exactly last-write-wins lookup semantics. -/

abbrev LabelSet := List (String × String)

abbrev GaugeKey := String × LabelSet

abbrev Registry := List (GaugeKey × Int)

/-- Models `gauge.set(labels, value)`: the latest write for a key wins. -/
def gaugeSet (reg : Registry) (k : GaugeKey) (v : Int) : Registry :=
  (k, v) :: reg

/-- The current sample value for a (metric name, label set) key, if any. -/
def gaugeGet (reg : Registry) (k : GaugeKey) : Option Int :=
  (reg.find? (fun e => decide (e.1 = k))).map (·.2)

/-! ### Collector field extraction (src/collector.ts lines 429-432, 453-458, 493-498) -/

/-- `cloudSpace.metadata?.name || 'unknown'` -/
def cloudSpaceName (cs : CloudSpace) : String :=
  jsOrStr (cs.metadata.bind ObjectMeta.name) "unknown"

/-- `cloudSpace.spec?.region || 'unknown'` -/
def cloudSpaceRegion (cs : CloudSpace) : String :=
  jsOrStr (cs.spec.bind CloudSpaceSpec.region) "unknown"

/-- `cloudSpace.status?.assignedServers || {}` (as its key list). An empty
object is truthy in JS, so a present-but-empty map is kept as is; absence
falls back to the empty object. -/
def cloudSpaceAssignedServers (cs : CloudSpace) : List String :=
  (cs.status.bind CloudSpaceStatus.assignedServers).getD []

/-- `Object.keys(assignedServers).length` -/
def cloudSpaceNodeCount (cs : CloudSpace) : Int :=
  (cloudSpaceAssignedServers cs).length

/-- `pool.metadata?.name || 'unknown'` -/
def spotNodePoolName (p : SpotNodePool) : String :=
  jsOrStr (p.metadata.bind ObjectMeta.name) "unknown"

/-- `pool.spec?.cloudSpace || 'unknown'` -/
def spotNodePoolCloudSpace (p : SpotNodePool) : String :=
  jsOrStr (p.spec.bind SpotNodePoolSpec.cloudSpace) "unknown"

/-- `pool.spec?.serverClass || 'unknown'` -/
def spotNodePoolServerClass (p : SpotNodePool) : String :=
  jsOrStr (p.spec.bind SpotNodePoolSpec.serverClass) "unknown"

/-- `pool.spec?.desired || 0` -/
def spotNodePoolDesired (p : SpotNodePool) : Int :=
  jsOrInt (p.spec.bind SpotNodePoolSpec.desired) 0

/-- `pool.status?.wonCount || 0` -/
def spotNodePoolWonCount (p : SpotNodePool) : Int :=
  jsOrInt (p.status.bind SpotNodePoolStatus.wonCount) 0

/-- `pool.status?.bidStatus || 'unknown'` -/
def spotNodePoolBidStatus (p : SpotNodePool) : String :=
  jsOrStr (p.status.bind SpotNodePoolStatus.bidStatus) "unknown"

/-- `pool.metadata?.name || 'unknown'` (on-demand pools) -/
def onDemandName (p : OnDemandNodePool) : String :=
  jsOrStr (p.metadata.bind ObjectMeta.name) "unknown"

/-- `pool.spec?.cloudSpace || 'unknown'` (on-demand pools) -/
def onDemandCloudSpace (p : OnDemandNodePool) : String :=
  jsOrStr (p.spec.bind OnDemandNodePoolSpec.cloudSpace) "unknown"

/-- `pool.spec?.serverClass || 'unknown'` (on-demand pools) -/
def onDemandServerClass (p : OnDemandNodePool) : String :=
  jsOrStr (p.spec.bind OnDemandNodePoolSpec.serverClass) "unknown"

/-- `pool.spec?.desired || 0` (on-demand pools) -/
def onDemandDesired (p : OnDemandNodePool) : Int :=
  jsOrInt (p.spec.bind OnDemandNodePoolSpec.desired) 0

/-- `pool.status?.reservedCount || 0` -/
def onDemandReservedCount (p : OnDemandNodePool) : Int :=
  jsOrInt (p.status.bind OnDemandNodePoolStatus.reservedCount) 0

/-- `pool.status?.reservedStatus || 'unknown'` -/
def onDemandReservedStatus (p : OnDemandNodePool) : String :=
  jsOrStr (p.status.bind OnDemandNodePoolStatus.reservedStatus) "unknown"

/-! ### Gauge keys and per-item writes (src/collector.ts lines 434-441, 460-481, 500-521) -/

def cloudSpaceKey (org : String) (cs : CloudSpace) : GaugeKey :=
  ("rackspace_spot_cloudspace_nodes_total",
   [("namespace", org), ("cloudspace", cloudSpaceName cs),
    ("cloudspace_region", cloudSpaceRegion cs)])

def spotDesiredKey (org : String) (p : SpotNodePool) : GaugeKey :=
  ("rackspace_spot_spotnodepool_desired",
   [("namespace", org), ("cloudspace", spotNodePoolCloudSpace p),
    ("nodepool", spotNodePoolName p), ("serverclass", spotNodePoolServerClass p)])

def spotWonCountKey (org : String) (p : SpotNodePool) : GaugeKey :=
  ("rackspace_spot_spotnodepool_won_count",
   [("namespace", org), ("cloudspace", spotNodePoolCloudSpace p),
    ("nodepool", spotNodePoolName p), ("serverclass", spotNodePoolServerClass p),
    ("bid_status", spotNodePoolBidStatus p)])

def onDemandDesiredKey (org : String) (p : OnDemandNodePool) : GaugeKey :=
  ("rackspace_spot_ondemandnodepool_desired",
   [("namespace", org), ("cloudspace", onDemandCloudSpace p),
    ("nodepool", onDemandName p), ("serverclass", onDemandServerClass p)])

def onDemandReservedKey (org : String) (p : OnDemandNodePool) : GaugeKey :=
  ("rackspace_spot_ondemandnodepool_reserved_count",
   [("namespace", org), ("cloudspace", onDemandCloudSpace p),
    ("nodepool", onDemandName p), ("serverclass", onDemandServerClass p),
    ("reserved_status", onDemandReservedStatus p)])

/-- One loop iteration of `collectCloudSpaceMetrics`: the single
`cloudspaceNodesGauge.set` call for one item. -/
def writeCloudSpace (org : String) (reg : Registry) (cs : CloudSpace) : Registry :=
  gaugeSet reg (cloudSpaceKey org cs) (cloudSpaceNodeCount cs)

/-- One loop iteration of `collectSpotNodePoolMetrics`: sets the desired
gauge, then the won-count gauge. -/
def writeSpotNodePool (org : String) (reg : Registry) (p : SpotNodePool) : Registry :=
  gaugeSet (gaugeSet reg (spotDesiredKey org p) (spotNodePoolDesired p))
    (spotWonCountKey org p) (spotNodePoolWonCount p)

/-- One loop iteration of `collectOnDemandNodePoolMetrics`: sets the desired
gauge, then the reserved-count gauge. -/
def writeOnDemandNodePool (org : String) (reg : Registry) (p : OnDemandNodePool) : Registry :=
  gaugeSet (gaugeSet reg (onDemandDesiredKey org p) (onDemandDesired p))
    (onDemandReservedKey org p) (onDemandReservedCount p)

/-! ### Per-family collection (src/collector.ts lines 421-523)

Each family, given its (already fetched) list response, guards
`if (!resp?.items) return;` (an empty array is truthy in JS, so only
absence of the body or of `items` takes the early return) and then iterates
the items, setting gauges. -/

def collectCloudSpaceMetrics (org : String) (cloudSpaces : Option (ListResponse CloudSpace))
    (reg : Registry) : Registry :=
  match cloudSpaces.bind ListResponse.items with
  | none => reg
  | some items => items.foldl (writeCloudSpace org) reg

def collectSpotNodePoolMetrics (org : String) (spotNodePools : Option (ListResponse SpotNodePool))
    (reg : Registry) : Registry :=
  match spotNodePools.bind ListResponse.items with
  | none => reg
  | some items => items.foldl (writeSpotNodePool org) reg

def collectOnDemandNodePoolMetrics (org : String)
    (onDemandNodePools : Option (ListResponse OnDemandNodePool)) (reg : Registry) : Registry :=
  match onDemandNodePools.bind ListResponse.items with
  | none => reg
  | some items => items.foldl (writeOnDemandNodePool org) reg

/-- A family commit: if the fetch rejected, that family writes nothing;
otherwise the family function runs to completion on the response. -/
def commitCloudSpaces (org : String) (fetch : Except String (Option (ListResponse CloudSpace)))
    (reg : Registry) : Registry :=
  match fetch with
  | .error _ => reg
  | .ok r => collectCloudSpaceMetrics org r reg

def commitSpotNodePools (org : String) (fetch : Except String (Option (ListResponse SpotNodePool)))
    (reg : Registry) : Registry :=
  match fetch with
  | .error _ => reg
  | .ok r => collectSpotNodePoolMetrics org r reg

def commitOnDemandNodePools (org : String)
    (fetch : Except String (Option (ListResponse OnDemandNodePool))) (reg : Registry) : Registry :=
  match fetch with
  | .error _ => reg
  | .ok r => collectOnDemandNodePoolMetrics org r reg

/-- Result of one `collect()` pass: the registry after the pass and, when
the pass rejected, the propagated error. -/
structure CollectOutcome where
  registry : Registry
  error : Option String
deriving Repr, DecidableEq

/-- `collect()` (src/collector.ts lines 408-419): `Promise.all` of the three
family collectors. Each family that fetched successfully commits all of its
writes even when another family rejects (its promise still runs to
completion); the pass as a whole rejects when at least one family rejects.
The three families write disjoint metric names, so the cross-family write
order does not affect any lookup; we fix the textual order. `error` is the
first rejection in that fixed order — the claims below only rely on
whether a rejection exists, which is order-independent. -/
def collect (org : String)
    (cloudSpaces : Except String (Option (ListResponse CloudSpace)))
    (spotNodePools : Except String (Option (ListResponse SpotNodePool)))
    (onDemandNodePools : Except String (Option (ListResponse OnDemandNodePool)))
    (reg : Registry) : CollectOutcome :=
  { registry :=
      commitOnDemandNodePools org onDemandNodePools
        (commitSpotNodePools org spotNodePools
          (commitCloudSpaces org cloudSpaces reg)),
    error :=
      match cloudSpaces with
      | .error e => some e
      | .ok _ =>
        match spotNodePools with
        | .error e => some e
        | .ok _ =>
          match onDemandNodePools with
          | .error e => some e
          | .ok _ => none }

/-! ### API client authentication (src/api-client.ts)

`TokenState` is the client's `accessToken`/`tokenExpiry` pair; the token
endpoint's behaviour at the moment of an exchange is an `AuthHttpResult`
(the response `fetch` would produce). `ensureAuthenticated` additionally
reports how many token exchanges it performed, so that cache hits and
retries are observable. -/

structure TokenState where
  accessToken : Option String
  tokenExpiry : Int
deriving Repr, DecidableEq

/-- The client's initial token state: `accessToken = null`, `tokenExpiry = 0`. -/
def TokenState.init : TokenState := { accessToken := none, tokenExpiry := 0 }

structure OAuthTokenResponse where
  access_token : String
  id_token : String
  token_type : String
  expires_in : Int
  scope : String
deriving Repr, DecidableEq

/-- Outcome of the `fetch` against `{authBaseUrl}/oauth/token`: a non-ok
HTTP response with its status and body text, or an ok response with the
parsed JSON body. -/
inductive AuthHttpResult where
  | failure (status : Int) (body : String)
  | success (resp : OAuthTokenResponse)
deriving Repr, DecidableEq

/-- JS truthiness of `string | null`: `null` and the empty string are falsy. -/
def jsTruthyStr : Option String → Bool
  | none => false
  | some s => s != ""

/-- The guard `this.accessToken && Date.now() < this.tokenExpiry - 60000`
of `ensureAuthenticated` (src/api-client.ts line 55). -/
def tokenIsFresh (st : TokenState) (now : Int) : Bool :=
  jsTruthyStr st.accessToken && decide (now < st.tokenExpiry - 60000)

/-- The error message thrown on a non-ok token response
(src/api-client.ts line 76). -/
def authErrorMessage (status : Int) (body : String) : String :=
  "Failed to authenticate: " ++ toString status ++ " - " ++ body

/-- `authenticate()` (src/api-client.ts lines 61-83): on a non-ok response
throw; on success store `id_token` as the bearer token and
`Date.now() + expires_in * 1000` as the expiry. -/
def authenticate (now : Int) (result : AuthHttpResult) : Except String TokenState :=
  match result with
  | .failure status body => .error (authErrorMessage status body)
  | .success r =>
      .ok { accessToken := some r.id_token, tokenExpiry := now + r.expires_in * 1000 }

/-- `ensureAuthenticated()` (src/api-client.ts lines 53-59), paired with
the number of token exchanges it performed (0 on a cache hit, 1 otherwise). -/
def ensureAuthenticated (st : TokenState) (now : Int) (result : AuthHttpResult) :
    Except String TokenState × Nat :=
  if tokenIsFresh st now then (.ok st, 0)
  else (authenticate now result, 1)

/-- `request.headers.set(k, v)`: replaces any existing header of that name. -/
def setHeader (hs : List (String × String)) (k v : String) : List (String × String) :=
  (k, v) :: hs.filter (fun h => h.1 != k)

/-- Reads a header value from a header list. -/
def getHeader (hs : List (String × String)) (k : String) : Option String :=
  (hs.find? (fun h => decide (h.1 = k))).map (·.2)

/-- The `onRequest` auth middleware (src/api-client.ts lines 40-48): run
`ensureAuthenticated`, then, if the stored token is truthy, set the
`Authorization: Bearer <token>` header. A thrown auth error propagates.
The `Nat` component counts token exchanges performed. -/
def authMiddleware (st : TokenState) (now : Int) (result : AuthHttpResult)
    (headers : List (String × String)) :
    Except String (TokenState × List (String × String)) × Nat :=
  match ensureAuthenticated st now result with
  | (.error e, n) => (.error e, n)
  | (.ok st', n) =>
    match st'.accessToken with
    | some t =>
        (.ok (st', if t != "" then setHeader headers "Authorization" ("Bearer " ++ t)
              else headers), n)
    | none => (.ok (st', headers), n)

/-- Outcome of a `client.GET` once the request went out: either the
endpoint answered with an error body (openapi-fetch `error`, already
JSON-stringified here) or with data. -/
inductive GetResult (α : Type) where
  | httpError (err : String)
  | success (data : α)
deriving Repr, DecidableEq

/-- An authenticated `client.GET`: the middleware runs first; if it throws,
the call rejects and the endpoint is never consulted. -/
def clientGet {α : Type} (st : TokenState) (now : Int) (auth : AuthHttpResult)
    (outcome : GetResult α) : Except String (TokenState × GetResult α) × Nat :=
  match authMiddleware st now auth [] with
  | (.error e, n) => (.error e, n)
  | (.ok (st', _), n) => (.ok (st', outcome), n)

/-- `listCloudSpaces` (src/api-client.ts lines 85-95). -/
def listCloudSpaces (st : TokenState) (now : Int) (auth : AuthHttpResult)
    (outcome : GetResult (Option (ListResponse CloudSpace))) :
    Except String (TokenState × Option (ListResponse CloudSpace)) × Nat :=
  match clientGet st now auth outcome with
  | (.error e, n) => (.error e, n)
  | (.ok (_, .httpError err), n) => (.error ("Failed to list cloudspaces: " ++ err), n)
  | (.ok (st', .success d), n) => (.ok (st', d), n)

/-- `listSpotNodePools` (src/api-client.ts lines 97-107). -/
def listSpotNodePools (st : TokenState) (now : Int) (auth : AuthHttpResult)
    (outcome : GetResult (Option (ListResponse SpotNodePool))) :
    Except String (TokenState × Option (ListResponse SpotNodePool)) × Nat :=
  match clientGet st now auth outcome with
  | (.error e, n) => (.error e, n)
  | (.ok (_, .httpError err), n) => (.error ("Failed to list spot node pools: " ++ err), n)
  | (.ok (st', .success d), n) => (.ok (st', d), n)

/-- `listOnDemandNodePools` (src/api-client.ts lines 109-119). -/
def listOnDemandNodePools (st : TokenState) (now : Int) (auth : AuthHttpResult)
    (outcome : GetResult (Option (ListResponse OnDemandNodePool))) :
    Except String (TokenState × Option (ListResponse OnDemandNodePool)) × Nat :=
  match clientGet st now auth outcome with
  | (.error e, n) => (.error e, n)
  | (.ok (_, .httpError err), n) => (.error ("Failed to list on-demand node pools: " ++ err), n)
  | (.ok (st', .success d), n) => (.ok (st', d), n)

/-! ### Exporter scheduling loop (index.ts lines 267-290)

`collectMetrics` runs on a single-threaded event loop. Its synchronous
prefix — the `isCollecting` check and the `isCollecting = true` assignment
— executes atomically before the first `await`, so the loop is an event
system with two events: a timer tick (which either starts a pass or is
skipped) and the settling of the awaited `collector.collect()` (whose
`finally` clears the flag). -/

structure SchedulerState where
  isCollecting : Bool
  startedPasses : Nat
  finishedPasses : Nat
deriving Repr, DecidableEq

def SchedulerState.init : SchedulerState :=
  { isCollecting := false, startedPasses := 0, finishedPasses := 0 }

inductive SchedulerEvent where
  | tick
  | finish
deriving Repr, DecidableEq

/-- One scheduler transition. `tick`: `if (isCollecting) return;` else set
the flag and start a pass. `finish`: the in-flight pass settles and its
`finally` clears the flag (a `finish` with no pass in flight cannot occur;
it is a no-op here for totality). -/
def schedulerStep (s : SchedulerState) : SchedulerEvent → SchedulerState
  | .tick =>
      if s.isCollecting then s
      else { isCollecting := true, startedPasses := s.startedPasses + 1,
             finishedPasses := s.finishedPasses }
  | .finish =>
      if s.isCollecting then
        { isCollecting := false, startedPasses := s.startedPasses,
          finishedPasses := s.finishedPasses + 1 }
      else s

/-- The scheduler state after a sequence of events from process start. -/
def schedulerRun (events : List SchedulerEvent) : SchedulerState :=
  events.foldl schedulerStep SchedulerState.init

/-- Number of collection passes currently in flight. -/
def inFlight (s : SchedulerState) : Nat := s.startedPasses - s.finishedPasses

/-! ### Sample inputs used by witnesses -/

/-- The CloudSpace item of the spec's scenario: named `cloudspace-1`,
region `us-central-dfw-1`, two keys in `assignedServers`. -/
def sampleCloudSpace : CloudSpace :=
  { metadata := some { name := some "cloudspace-1" },
    spec := some { region := some "us-central-dfw-1" },
    status := some { assignedServers := some ["server-1", "server-2"] } }

/-- A spot pool item with every field absent (`{metadata:{},spec:{},status:{}}`). -/
def emptySpotNodePool : SpotNodePool :=
  { metadata := some { name := none },
    spec := some { cloudSpace := none, serverClass := none, desired := none },
    status := some { wonCount := none, bidStatus := none } }

/-- An on-demand pool item with every field absent. -/
def emptyOnDemandNodePool : OnDemandNodePool :=
  { metadata := some { name := none },
    spec := some { cloudSpace := none, serverClass := none, desired := none },
    status := some { reservedCount := none, reservedStatus := none } }

/-- A CloudSpace item with every field absent. -/
def emptyCloudSpace : CloudSpace :=
  { metadata := some { name := none }, spec := some { region := none },
    status := some { assignedServers := none } }

/-- A spot pool item whose string fields are present but empty and whose
numeric fields are an explicit `0`. -/
def blankSpotNodePool : SpotNodePool :=
  { metadata := some { name := some "" },
    spec := some { cloudSpace := some "", serverClass := some "", desired := some 0 },
    status := some { wonCount := some 0, bidStatus := some "" } }

/-- A CloudSpace item whose string fields are present but empty. -/
def blankCloudSpace : CloudSpace :=
  { metadata := some { name := some "" }, spec := some { region := some "" },
    status := some { assignedServers := some [] } }

/-- An on-demand pool item whose `reservedStatus` is present but empty. -/
def blankOnDemandNodePool : OnDemandNodePool :=
  { metadata := some { name := some "" },
    spec := some { cloudSpace := some "", serverClass := some "", desired := some 0 },
    status := some { reservedCount := some 0, reservedStatus := some "" } }

/-- The spot pool of the spec's scenario: `desired = 5`, `wonCount = 3`,
`bidStatus = "winning"`. -/
def sampleSpotNodePool : SpotNodePool :=
  { metadata := some { name := some "spot-pool-1" },
    spec := some { cloudSpace := some "cloudspace-1",
                   serverClass := some "gp.vs1.small-dfw", desired := some 5 },
    status := some { wonCount := some 3, bidStatus := some "winning" } }

/-- A successful cloudspace fetch returning one item. -/
def sampleCsFetch : Except String (Option (ListResponse CloudSpace)) :=
  .ok (some { items := some [sampleCloudSpace] })

/-- A successful cloudspace fetch returning an empty item list. -/
def emptyCsFetch : Except String (Option (ListResponse CloudSpace)) :=
  .ok (some { items := some [] })

/-- A rejected cloudspace fetch. -/
def failedCsFetch : Except String (Option (ListResponse CloudSpace)) :=
  .error "API Error"

/-- A successful spot pool fetch returning one item. -/
def sampleSnpFetch : Except String (Option (ListResponse SpotNodePool)) :=
  .ok (some { items := some [sampleSpotNodePool] })

/-- A successful spot pool fetch returning an empty item list. -/
def emptySnpFetch : Except String (Option (ListResponse SpotNodePool)) :=
  .ok (some { items := some [] })

/-- A successful on-demand fetch whose body is absent entirely. -/
def absentOdFetch : Except String (Option (ListResponse OnDemandNodePool)) :=
  .ok none

/-- A label combination published by some earlier pass and absent from the
current one. -/
def oldComboKey : GaugeKey :=
  ("rackspace_spot_cloudspace_nodes_total",
   [("namespace", "org-test"), ("cloudspace", "cloudspace-old"),
    ("cloudspace_region", "us-east-iad-1")])

/-- A successful token-endpoint response with a one-day lifetime. -/
def sampleTokenResponse : OAuthTokenResponse :=
  { access_token := "sample-access-token", id_token := "sample-id-token",
    token_type := "Bearer", expires_in := 86400, scope := "openid" }

/-! ### Keys written by a collection pass -/

/-- The gauge keys written while iterating a CloudSpace item list. -/
def cloudSpacePassKeys (org : String) (items : List CloudSpace) : List GaugeKey :=
  items.map (cloudSpaceKey org)

/-- The gauge keys written while iterating a spot pool item list. -/
def spotPassKeys (org : String) (items : List SpotNodePool) : List GaugeKey :=
  items.flatMap (fun p => [spotDesiredKey org p, spotWonCountKey org p])

/-- The gauge keys written while iterating an on-demand pool item list. -/
def onDemandPassKeys (org : String) (items : List OnDemandNodePool) : List GaugeKey :=
  items.flatMap (fun p => [onDemandDesiredKey org p, onDemandReservedKey org p])

/-- The gauge keys one family writes, given its fetch outcome: nothing on a
rejected fetch or an absent item list. -/
def familyPassKeys {α : Type} (fetch : Except String (Option (ListResponse α)))
    (keysOf : List α → List GaugeKey) : List GaugeKey :=
  match fetch with
  | .error _ => []
  | .ok r =>
    match r.bind ListResponse.items with
    | none => []
    | some items => keysOf items

/-- All (metric name, label set) combinations written by one `collect()` pass. -/
def collectPassKeys (org : String)
    (cs : Except String (Option (ListResponse CloudSpace)))
    (snp : Except String (Option (ListResponse SpotNodePool)))
    (od : Except String (Option (ListResponse OnDemandNodePool))) : List GaugeKey :=
  familyPassKeys cs (cloudSpacePassKeys org) ++ familyPassKeys snp (spotPassKeys org) ++
    familyPassKeys od (onDemandPassKeys org)

/-! ### Registry lemmas -/

theorem gaugeGet_gaugeSet (reg : Registry) (k k' : GaugeKey) (v : Int) :
    gaugeGet (gaugeSet reg k v) k' = if k' = k then some v else gaugeGet reg k' := by
  by_cases h : k' = k
  · simp [gaugeGet, gaugeSet, List.find?_cons, h]
  · simp only [gaugeGet, gaugeSet, List.find?_cons]
    rw [decide_eq_false (fun h' => h h'.symm)]
    simp [h]

theorem gaugeGet_gaugeSet_congr (r1 r2 : Registry) (key k : GaugeKey) (v : Int)
    (h : gaugeGet r1 k = gaugeGet r2 k) :
    gaugeGet (gaugeSet r1 key v) k = gaugeGet (gaugeSet r2 key v) k := by
  rw [gaugeGet_gaugeSet, gaugeGet_gaugeSet]
  by_cases hk : k = key <;> simp [hk, h]

theorem gaugeGet_foldl {α : Type} (write : Registry → α → Registry) (k : GaugeKey)
    (items : List α)
    (hw : ∀ reg a, a ∈ items → gaugeGet (write reg a) k = gaugeGet reg k) :
    ∀ reg, gaugeGet (items.foldl write reg) k = gaugeGet reg k := by
  induction items with
  | nil => intro reg; rfl
  | cons a l ih =>
    intro reg
    rw [List.foldl_cons, ih (fun r b hb => hw r b (List.mem_cons_of_mem _ hb)) _,
      hw reg a (List.mem_cons_self _ _)]

theorem gaugeGet_foldl_congr {α : Type} (write : Registry → α → Registry) (k : GaugeKey)
    (hc : ∀ r1 r2 a, gaugeGet r1 k = gaugeGet r2 k →
      gaugeGet (write r1 a) k = gaugeGet (write r2 a) k) (items : List α) :
    ∀ r1 r2, gaugeGet r1 k = gaugeGet r2 k →
      gaugeGet (items.foldl write r1) k = gaugeGet (items.foldl write r2) k := by
  induction items with
  | nil => exact fun r1 r2 h => h
  | cons a l ih =>
    intro r1 r2 h
    rw [List.foldl_cons, List.foldl_cons]
    exact ih _ _ (hc r1 r2 a h)

theorem writeCloudSpace_frame (org : String) (reg : Registry) (cs : CloudSpace)
    (k : GaugeKey) (h : k ≠ cloudSpaceKey org cs) :
    gaugeGet (writeCloudSpace org reg cs) k = gaugeGet reg k := by
  simp [writeCloudSpace, gaugeGet_gaugeSet, h]

theorem writeSpotNodePool_frame (org : String) (reg : Registry) (p : SpotNodePool)
    (k : GaugeKey) (h1 : k ≠ spotDesiredKey org p) (h2 : k ≠ spotWonCountKey org p) :
    gaugeGet (writeSpotNodePool org reg p) k = gaugeGet reg k := by
  simp [writeSpotNodePool, gaugeGet_gaugeSet, h1, h2]

theorem writeOnDemandNodePool_frame (org : String) (reg : Registry) (p : OnDemandNodePool)
    (k : GaugeKey) (h1 : k ≠ onDemandDesiredKey org p) (h2 : k ≠ onDemandReservedKey org p) :
    gaugeGet (writeOnDemandNodePool org reg p) k = gaugeGet reg k := by
  simp [writeOnDemandNodePool, gaugeGet_gaugeSet, h1, h2]

theorem writeCloudSpace_congr (org : String) (cs : CloudSpace) (k : GaugeKey)
    (r1 r2 : Registry) (h : gaugeGet r1 k = gaugeGet r2 k) :
    gaugeGet (writeCloudSpace org r1 cs) k = gaugeGet (writeCloudSpace org r2 cs) k :=
  gaugeGet_gaugeSet_congr _ _ _ _ _ h

theorem writeSpotNodePool_congr (org : String) (p : SpotNodePool) (k : GaugeKey)
    (r1 r2 : Registry) (h : gaugeGet r1 k = gaugeGet r2 k) :
    gaugeGet (writeSpotNodePool org r1 p) k = gaugeGet (writeSpotNodePool org r2 p) k :=
  gaugeGet_gaugeSet_congr _ _ _ _ _ (gaugeGet_gaugeSet_congr _ _ _ _ _ h)

theorem writeOnDemandNodePool_congr (org : String) (p : OnDemandNodePool) (k : GaugeKey)
    (r1 r2 : Registry) (h : gaugeGet r1 k = gaugeGet r2 k) :
    gaugeGet (writeOnDemandNodePool org r1 p) k = gaugeGet (writeOnDemandNodePool org r2 p) k :=
  gaugeGet_gaugeSet_congr _ _ _ _ _ (gaugeGet_gaugeSet_congr _ _ _ _ _ h)

theorem collectCloudSpaceMetrics_frame (org : String) (r : Option (ListResponse CloudSpace))
    (reg : Registry) (k : GaugeKey)
    (h : ∀ items, r.bind ListResponse.items = some items → k ∉ cloudSpacePassKeys org items) :
    gaugeGet (collectCloudSpaceMetrics org r reg) k = gaugeGet reg k := by
  cases hr : r.bind ListResponse.items with
  | none => simp [collectCloudSpaceMetrics, hr]
  | some items =>
    simp only [collectCloudSpaceMetrics, hr]
    refine gaugeGet_foldl _ _ _ (fun reg2 a ha => writeCloudSpace_frame _ _ _ _ ?_) reg
    intro he
    exact h items hr (by simpa [cloudSpacePassKeys, he] using List.mem_map_of_mem (cloudSpaceKey org) ha)

theorem collectSpotNodePoolMetrics_frame (org : String)
    (r : Option (ListResponse SpotNodePool)) (reg : Registry) (k : GaugeKey)
    (h : ∀ items, r.bind ListResponse.items = some items → k ∉ spotPassKeys org items) :
    gaugeGet (collectSpotNodePoolMetrics org r reg) k = gaugeGet reg k := by
  cases hr : r.bind ListResponse.items with
  | none => simp [collectSpotNodePoolMetrics, hr]
  | some items =>
    simp only [collectSpotNodePoolMetrics, hr]
    refine gaugeGet_foldl _ _ _
      (fun reg2 a ha => writeSpotNodePool_frame _ _ _ _ ?_ ?_) reg
    all_goals intro he
    all_goals refine h items hr (List.mem_flatMap.mpr ⟨a, ha, ?_⟩)
    · simp [he]
    · simp [he]

theorem collectOnDemandNodePoolMetrics_frame (org : String)
    (r : Option (ListResponse OnDemandNodePool)) (reg : Registry) (k : GaugeKey)
    (h : ∀ items, r.bind ListResponse.items = some items → k ∉ onDemandPassKeys org items) :
    gaugeGet (collectOnDemandNodePoolMetrics org r reg) k = gaugeGet reg k := by
  cases hr : r.bind ListResponse.items with
  | none => simp [collectOnDemandNodePoolMetrics, hr]
  | some items =>
    simp only [collectOnDemandNodePoolMetrics, hr]
    refine gaugeGet_foldl _ _ _
      (fun reg2 a ha => writeOnDemandNodePool_frame _ _ _ _ ?_ ?_) reg
    all_goals intro he
    all_goals refine h items hr (List.mem_flatMap.mpr ⟨a, ha, ?_⟩)
    · simp [he]
    · simp [he]

theorem commitCloudSpaces_frame (org : String)
    (fetch : Except String (Option (ListResponse CloudSpace))) (reg : Registry) (k : GaugeKey)
    (h : k ∉ familyPassKeys fetch (cloudSpacePassKeys org)) :
    gaugeGet (commitCloudSpaces org fetch reg) k = gaugeGet reg k := by
  cases fetch with
  | error e => rfl
  | ok r =>
    refine collectCloudSpaceMetrics_frame _ _ _ _ (fun items hit => ?_)
    simpa [familyPassKeys, hit] using h

theorem commitSpotNodePools_frame (org : String)
    (fetch : Except String (Option (ListResponse SpotNodePool))) (reg : Registry) (k : GaugeKey)
    (h : k ∉ familyPassKeys fetch (spotPassKeys org)) :
    gaugeGet (commitSpotNodePools org fetch reg) k = gaugeGet reg k := by
  cases fetch with
  | error e => rfl
  | ok r =>
    refine collectSpotNodePoolMetrics_frame _ _ _ _ (fun items hit => ?_)
    simpa [familyPassKeys, hit] using h

theorem commitOnDemandNodePools_frame (org : String)
    (fetch : Except String (Option (ListResponse OnDemandNodePool))) (reg : Registry)
    (k : GaugeKey) (h : k ∉ familyPassKeys fetch (onDemandPassKeys org)) :
    gaugeGet (commitOnDemandNodePools org fetch reg) k = gaugeGet reg k := by
  cases fetch with
  | error e => rfl
  | ok r =>
    refine collectOnDemandNodePoolMetrics_frame _ _ _ _ (fun items hit => ?_)
    simpa [familyPassKeys, hit] using h

theorem mem_cloudSpacePassKeys_fst (org : String) (items : List CloudSpace) (k : GaugeKey)
    (h : k ∈ cloudSpacePassKeys org items) :
    k.1 = "rackspace_spot_cloudspace_nodes_total" := by
  simp [cloudSpacePassKeys, List.mem_map] at h
  obtain ⟨a, _, hk⟩ := h
  rw [← hk]
  rfl

theorem mem_spotPassKeys_fst (org : String) (items : List SpotNodePool) (k : GaugeKey)
    (h : k ∈ spotPassKeys org items) :
    k.1 = "rackspace_spot_spotnodepool_desired" ∨
      k.1 = "rackspace_spot_spotnodepool_won_count" := by
  simp [spotPassKeys, List.mem_flatMap] at h
  obtain ⟨a, _, hk⟩ := h
  rcases hk with rfl | rfl
  · exact Or.inl rfl
  · exact Or.inr rfl

theorem mem_onDemandPassKeys_fst (org : String) (items : List OnDemandNodePool) (k : GaugeKey)
    (h : k ∈ onDemandPassKeys org items) :
    k.1 = "rackspace_spot_ondemandnodepool_desired" ∨
      k.1 = "rackspace_spot_ondemandnodepool_reserved_count" := by
  simp [onDemandPassKeys, List.mem_flatMap] at h
  obtain ⟨a, _, hk⟩ := h
  rcases hk with rfl | rfl
  · exact Or.inl rfl
  · exact Or.inr rfl

theorem mem_familyPassKeys {α : Type} (fetch : Except String (Option (ListResponse α)))
    (keysOf : List α → List GaugeKey) (k : GaugeKey) (h : k ∈ familyPassKeys fetch keysOf) :
    ∃ items, k ∈ keysOf items := by
  cases fetch with
  | error e => simp [familyPassKeys] at h
  | ok r =>
    cases hr : r.bind ListResponse.items with
    | none => simp [familyPassKeys, hr] at h
    | some items => exact ⟨items, by simpa [familyPassKeys, hr] using h⟩

theorem commitCloudSpaces_name_frame (org : String)
    (fetch : Except String (Option (ListResponse CloudSpace))) (reg : Registry) (k : GaugeKey)
    (h : k.1 ≠ "rackspace_spot_cloudspace_nodes_total") :
    gaugeGet (commitCloudSpaces org fetch reg) k = gaugeGet reg k := by
  refine commitCloudSpaces_frame _ _ _ _ (fun hk => ?_)
  obtain ⟨items, hk'⟩ := mem_familyPassKeys _ _ _ hk
  exact h (mem_cloudSpacePassKeys_fst _ _ _ hk')

theorem commitSpotNodePools_name_frame (org : String)
    (fetch : Except String (Option (ListResponse SpotNodePool))) (reg : Registry) (k : GaugeKey)
    (h1 : k.1 ≠ "rackspace_spot_spotnodepool_desired")
    (h2 : k.1 ≠ "rackspace_spot_spotnodepool_won_count") :
    gaugeGet (commitSpotNodePools org fetch reg) k = gaugeGet reg k := by
  refine commitSpotNodePools_frame _ _ _ _ (fun hk => ?_)
  obtain ⟨items, hk'⟩ := mem_familyPassKeys _ _ _ hk
  rcases mem_spotPassKeys_fst _ _ _ hk' with h | h
  · exact h1 h
  · exact h2 h

theorem commitOnDemandNodePools_name_frame (org : String)
    (fetch : Except String (Option (ListResponse OnDemandNodePool))) (reg : Registry)
    (k : GaugeKey) (h1 : k.1 ≠ "rackspace_spot_ondemandnodepool_desired")
    (h2 : k.1 ≠ "rackspace_spot_ondemandnodepool_reserved_count") :
    gaugeGet (commitOnDemandNodePools org fetch reg) k = gaugeGet reg k := by
  refine commitOnDemandNodePools_frame _ _ _ _ (fun hk => ?_)
  obtain ⟨items, hk'⟩ := mem_familyPassKeys _ _ _ hk
  rcases mem_onDemandPassKeys_fst _ _ _ hk' with h | h
  · exact h1 h
  · exact h2 h

theorem commitSpotNodePools_congr (org : String)
    (fetch : Except String (Option (ListResponse SpotNodePool))) (k : GaugeKey)
    (r1 r2 : Registry) (h : gaugeGet r1 k = gaugeGet r2 k) :
    gaugeGet (commitSpotNodePools org fetch r1) k =
      gaugeGet (commitSpotNodePools org fetch r2) k := by
  cases fetch with
  | error e => exact h
  | ok r =>
    cases hr : r.bind ListResponse.items with
    | none => simpa [commitSpotNodePools, collectSpotNodePoolMetrics, hr] using h
    | some items =>
      simp only [commitSpotNodePools, collectSpotNodePoolMetrics, hr]
      exact gaugeGet_foldl_congr _ _ (fun s1 s2 a hab => writeSpotNodePool_congr org a k s1 s2 hab)
        items r1 r2 h

theorem commitOnDemandNodePools_congr (org : String)
    (fetch : Except String (Option (ListResponse OnDemandNodePool))) (k : GaugeKey)
    (r1 r2 : Registry) (h : gaugeGet r1 k = gaugeGet r2 k) :
    gaugeGet (commitOnDemandNodePools org fetch r1) k =
      gaugeGet (commitOnDemandNodePools org fetch r2) k := by
  cases fetch with
  | error e => exact h
  | ok r =>
    cases hr : r.bind ListResponse.items with
    | none => simpa [commitOnDemandNodePools, collectOnDemandNodePoolMetrics, hr] using h
    | some items =>
      simp only [commitOnDemandNodePools, collectOnDemandNodePoolMetrics, hr]
      exact gaugeGet_foldl_congr _ _
        (fun s1 s2 a hab => writeOnDemandNodePool_congr org a k s1 s2 hab) items r1 r2 h

/-! ### Claim theorems -/

/-- C1: for every CloudSpace item, the value the collector sets on the
`rackspace_spot_cloudspace_nodes_total` gauge equals the number of keys of
the item's `status.assignedServers` map, and equals 0 when that map is
absent. -/
theorem cloudspace_node_count_correct (org : String) (cs : CloudSpace) (reg : Registry) :
    gaugeGet (writeCloudSpace org reg cs) (cloudSpaceKey org cs) =
      some (cloudSpaceNodeCount cs) ∧
    (∀ keys, cs.status.bind CloudSpaceStatus.assignedServers = some keys →
      cloudSpaceNodeCount cs = keys.length) ∧
    (cs.status.bind CloudSpaceStatus.assignedServers = none → cloudSpaceNodeCount cs = 0) := by
  refine ⟨?_, ?_, ?_⟩
  · simp [writeCloudSpace, gaugeGet_gaugeSet]
  · intro keys h
    simp [cloudSpaceNodeCount, cloudSpaceAssignedServers, h]
  · intro h
    simp [cloudSpaceNodeCount, cloudSpaceAssignedServers, h]

/-- Witness for C1: the spec's scenario item publishes the value 2 at the
expected label set, and an absent map gives 0. -/
theorem cloudspace_node_count_correct_witness :
    cloudSpaceKey "org-test" sampleCloudSpace =
      ("rackspace_spot_cloudspace_nodes_total",
       [("namespace", "org-test"), ("cloudspace", "cloudspace-1"),
        ("cloudspace_region", "us-central-dfw-1")]) ∧
    gaugeGet (writeCloudSpace "org-test" [] sampleCloudSpace)
      (cloudSpaceKey "org-test" sampleCloudSpace) = some 2 ∧
    cloudSpaceNodeCount sampleCloudSpace = 2 ∧
    cloudSpaceNodeCount emptyCloudSpace = 0 := by
  refine ⟨by decide, ?_, ?_, ?_⟩
  · rw [(cloudspace_node_count_correct "org-test" sampleCloudSpace []).1]
    decide
  · have h := (cloudspace_node_count_correct "org-test" sampleCloudSpace
      []).2.1 ["server-1", "server-2"] rfl
    simpa using h
  · exact (cloudspace_node_count_correct "org-test" emptyCloudSpace []).2.2 rfl

/-- C2: a missing field inside a resource item never raises an error
(every extraction and write below is a total function) and resolves to
its documented default: missing `metadata.name`, `spec.cloudSpace`,
`spec.serverClass`, `status.bidStatus`, `status.reservedStatus` give the
label `"unknown"`; missing `spec.desired`, `status.wonCount`,
`status.reservedCount` give the value 0. The final conjuncts show each
item's gauges are written with these extracted values for every item. -/
theorem missing_fields_default (org : String) (reg : Registry) (p : SpotNodePool)
    (q : OnDemandNodePool) (c : CloudSpace) :
    (p.metadata.bind ObjectMeta.name = none → spotNodePoolName p = "unknown") ∧
    (p.spec.bind SpotNodePoolSpec.cloudSpace = none → spotNodePoolCloudSpace p = "unknown") ∧
    (p.spec.bind SpotNodePoolSpec.serverClass = none → spotNodePoolServerClass p = "unknown") ∧
    (p.status.bind SpotNodePoolStatus.bidStatus = none → spotNodePoolBidStatus p = "unknown") ∧
    (p.spec.bind SpotNodePoolSpec.desired = none → spotNodePoolDesired p = 0) ∧
    (p.status.bind SpotNodePoolStatus.wonCount = none → spotNodePoolWonCount p = 0) ∧
    (q.metadata.bind ObjectMeta.name = none → onDemandName q = "unknown") ∧
    (q.spec.bind OnDemandNodePoolSpec.cloudSpace = none → onDemandCloudSpace q = "unknown") ∧
    (q.spec.bind OnDemandNodePoolSpec.serverClass = none → onDemandServerClass q = "unknown") ∧
    (q.status.bind OnDemandNodePoolStatus.reservedStatus = none →
      onDemandReservedStatus q = "unknown") ∧
    (q.spec.bind OnDemandNodePoolSpec.desired = none → onDemandDesired q = 0) ∧
    (q.status.bind OnDemandNodePoolStatus.reservedCount = none → onDemandReservedCount q = 0) ∧
    (c.metadata.bind ObjectMeta.name = none → cloudSpaceName c = "unknown") ∧
    gaugeGet (writeSpotNodePool org reg p) (spotWonCountKey org p) =
      some (spotNodePoolWonCount p) ∧
    gaugeGet (writeOnDemandNodePool org reg q) (onDemandReservedKey org q) =
      some (onDemandReservedCount q) := by
  refine ⟨?_, ?_, ?_, ?_, ?_, ?_, ?_, ?_, ?_, ?_, ?_, ?_, ?_, ?_, ?_⟩
  case _ => intro h; simp [spotNodePoolName, h, jsOrStr]
  case _ => intro h; simp [spotNodePoolCloudSpace, h, jsOrStr]
  case _ => intro h; simp [spotNodePoolServerClass, h, jsOrStr]
  case _ => intro h; simp [spotNodePoolBidStatus, h, jsOrStr]
  case _ => intro h; simp [spotNodePoolDesired, h, jsOrInt]
  case _ => intro h; simp [spotNodePoolWonCount, h, jsOrInt]
  case _ => intro h; simp [onDemandName, h, jsOrStr]
  case _ => intro h; simp [onDemandCloudSpace, h, jsOrStr]
  case _ => intro h; simp [onDemandServerClass, h, jsOrStr]
  case _ => intro h; simp [onDemandReservedStatus, h, jsOrStr]
  case _ => intro h; simp [onDemandDesired, h, jsOrInt]
  case _ => intro h; simp [onDemandReservedCount, h, jsOrInt]
  case _ => intro h; simp [cloudSpaceName, h, jsOrStr]
  case _ => simp [writeSpotNodePool, gaugeGet_gaugeSet]
  case _ => simp [writeOnDemandNodePool, gaugeGet_gaugeSet]

/-- Witness for C2: items with every field absent produce the documented
defaults, and their gauges are still written. -/
theorem missing_fields_default_witness :
    spotNodePoolName emptySpotNodePool = "unknown" ∧
    spotNodePoolCloudSpace emptySpotNodePool = "unknown" ∧
    spotNodePoolServerClass emptySpotNodePool = "unknown" ∧
    spotNodePoolBidStatus emptySpotNodePool = "unknown" ∧
    spotNodePoolDesired emptySpotNodePool = 0 ∧
    spotNodePoolWonCount emptySpotNodePool = 0 ∧
    onDemandName emptyOnDemandNodePool = "unknown" ∧
    onDemandCloudSpace emptyOnDemandNodePool = "unknown" ∧
    onDemandServerClass emptyOnDemandNodePool = "unknown" ∧
    onDemandReservedStatus emptyOnDemandNodePool = "unknown" ∧
    onDemandDesired emptyOnDemandNodePool = 0 ∧
    onDemandReservedCount emptyOnDemandNodePool = 0 ∧
    cloudSpaceName emptyCloudSpace = "unknown" ∧
    gaugeGet (writeSpotNodePool "org-test" [] emptySpotNodePool)
      (spotWonCountKey "org-test" emptySpotNodePool) = some 0 := by
  have h := missing_fields_default "org-test" [] emptySpotNodePool
    emptyOnDemandNodePool emptyCloudSpace
  refine ⟨h.1 rfl, h.2.1 rfl, h.2.2.1 rfl, h.2.2.2.1 rfl, h.2.2.2.2.1 rfl,
    h.2.2.2.2.2.1 rfl, h.2.2.2.2.2.2.1 rfl, h.2.2.2.2.2.2.2.1 rfl,
    h.2.2.2.2.2.2.2.2.1 rfl, h.2.2.2.2.2.2.2.2.2.1 rfl,
    h.2.2.2.2.2.2.2.2.2.2.1 rfl, h.2.2.2.2.2.2.2.2.2.2.2.1 rfl,
    h.2.2.2.2.2.2.2.2.2.2.2.2.1 rfl, ?_⟩
  rw [h.2.2.2.2.2.2.2.2.2.2.2.2.2.1, h.2.2.2.2.2.1 rfl]

/-- C10: a string field that is present but equal to the empty string is
treated exactly like an absent field and yields `"unknown"`, because the
defaulting uses JS falsy coercion; a numeric field equal to 0 yields 0,
so an explicit 0 is indistinguishable from an absent count (final
conjuncts compare an explicit-0 item with an absent-field item). -/
theorem empty_string_falsy_defaults (p p2 : SpotNodePool) (q : OnDemandNodePool)
    (c : CloudSpace) :
    (p.metadata.bind ObjectMeta.name = some "" → spotNodePoolName p = "unknown") ∧
    (p.spec.bind SpotNodePoolSpec.cloudSpace = some "" → spotNodePoolCloudSpace p = "unknown") ∧
    (p.spec.bind SpotNodePoolSpec.serverClass = some "" →
      spotNodePoolServerClass p = "unknown") ∧
    (p.status.bind SpotNodePoolStatus.bidStatus = some "" →
      spotNodePoolBidStatus p = "unknown") ∧
    (c.metadata.bind ObjectMeta.name = some "" → cloudSpaceName c = "unknown") ∧
    (c.spec.bind CloudSpaceSpec.region = some "" → cloudSpaceRegion c = "unknown") ∧
    (q.status.bind OnDemandNodePoolStatus.reservedStatus = some "" →
      onDemandReservedStatus q = "unknown") ∧
    (p.spec.bind SpotNodePoolSpec.desired = some 0 → spotNodePoolDesired p = 0) ∧
    (p.status.bind SpotNodePoolStatus.wonCount = some 0 → spotNodePoolWonCount p = 0) ∧
    (q.status.bind OnDemandNodePoolStatus.reservedCount = some 0 →
      onDemandReservedCount q = 0) ∧
    (p.spec.bind SpotNodePoolSpec.desired = some 0 →
      p2.spec.bind SpotNodePoolSpec.desired = none →
      spotNodePoolDesired p = spotNodePoolDesired p2) := by
  refine ⟨?_, ?_, ?_, ?_, ?_, ?_, ?_, ?_, ?_, ?_, ?_⟩
  case _ => intro h; simp [spotNodePoolName, h, jsOrStr]
  case _ => intro h; simp [spotNodePoolCloudSpace, h, jsOrStr]
  case _ => intro h; simp [spotNodePoolServerClass, h, jsOrStr]
  case _ => intro h; simp [spotNodePoolBidStatus, h, jsOrStr]
  case _ => intro h; simp [cloudSpaceName, h, jsOrStr]
  case _ => intro h; simp [cloudSpaceRegion, h, jsOrStr]
  case _ => intro h; simp [onDemandReservedStatus, h, jsOrStr]
  case _ => intro h; simp [spotNodePoolDesired, h, jsOrInt]
  case _ => intro h; simp [spotNodePoolWonCount, h, jsOrInt]
  case _ => intro h; simp [onDemandReservedCount, h, jsOrInt]
  case _ =>
    intro h h2
    simp [spotNodePoolDesired, h, h2, jsOrInt]

/-- Witness for C10: items with empty-string fields and explicit zeroes
produce the same results as items with absent fields. -/
theorem empty_string_falsy_defaults_witness :
    spotNodePoolName blankSpotNodePool = "unknown" ∧
    spotNodePoolCloudSpace blankSpotNodePool = "unknown" ∧
    spotNodePoolServerClass blankSpotNodePool = "unknown" ∧
    spotNodePoolBidStatus blankSpotNodePool = "unknown" ∧
    cloudSpaceName blankCloudSpace = "unknown" ∧
    cloudSpaceRegion blankCloudSpace = "unknown" ∧
    onDemandReservedStatus blankOnDemandNodePool = "unknown" ∧
    spotNodePoolDesired blankSpotNodePool = 0 ∧
    spotNodePoolWonCount blankSpotNodePool = 0 ∧
    onDemandReservedCount blankOnDemandNodePool = 0 ∧
    spotNodePoolDesired blankSpotNodePool = spotNodePoolDesired emptySpotNodePool := by
  have h := empty_string_falsy_defaults blankSpotNodePool emptySpotNodePool
    blankOnDemandNodePool blankCloudSpace
  exact ⟨h.1 rfl, h.2.1 rfl, h.2.2.1 rfl, h.2.2.2.1 rfl, h.2.2.2.2.1 rfl,
    h.2.2.2.2.2.1 rfl, h.2.2.2.2.2.2.1 rfl, h.2.2.2.2.2.2.2.1 rfl,
    h.2.2.2.2.2.2.2.2.1 rfl, h.2.2.2.2.2.2.2.2.2.1 rfl,
    h.2.2.2.2.2.2.2.2.2.2 rfl rfl⟩

/-- C6: `collect()` rejects exactly when at least one of the three list
calls rejects; when all three succeed but return empty or absent item
lists, it resolves without error and publishes no per-item label
combination (the registry is unchanged). -/
theorem collect_error_iff (org : String)
    (cs : Except String (Option (ListResponse CloudSpace)))
    (snp : Except String (Option (ListResponse SpotNodePool)))
    (od : Except String (Option (ListResponse OnDemandNodePool))) (reg : Registry) :
    ((∃ e, (collect org cs snp od reg).error = some e) ↔
      (∃ e, cs = Except.error e) ∨ (∃ e, snp = Except.error e) ∨
        (∃ e, od = Except.error e)) ∧
    (∀ a b c, cs = Except.ok a → snp = Except.ok b → od = Except.ok c →
      (a.bind ListResponse.items = none ∨ a.bind ListResponse.items = some []) →
      (b.bind ListResponse.items = none ∨ b.bind ListResponse.items = some []) →
      (c.bind ListResponse.items = none ∨ c.bind ListResponse.items = some []) →
      (collect org cs snp od reg).error = none ∧
        (collect org cs snp od reg).registry = reg) := by
  constructor
  · cases cs <;> cases snp <;> cases od <;> simp [collect]
  · intro a b c ha hb hc hia hib hic
    subst ha; subst hb; subst hc
    refine ⟨by simp [collect], ?_⟩
    show commitOnDemandNodePools org (Except.ok c)
      (commitSpotNodePools org (Except.ok b)
        (commitCloudSpaces org (Except.ok a) reg)) = reg
    rcases hia with hia | hia <;> rcases hib with hib | hib <;> rcases hic with hic | hic <;>
      simp [commitCloudSpaces, commitSpotNodePools, commitOnDemandNodePools,
        collectCloudSpaceMetrics, collectSpotNodePoolMetrics,
        collectOnDemandNodePoolMetrics, hia, hib, hic]

/-- Witness for C6: one rejected list call makes the pass reject; three
empty/absent lists resolve with an unchanged registry. -/
theorem collect_error_iff_witness :
    (∃ e, (collect "org-test" failedCsFetch emptySnpFetch absentOdFetch []).error = some e) ∧
    (collect "org-test" emptyCsFetch emptySnpFetch absentOdFetch []).error = none ∧
    (collect "org-test" emptyCsFetch emptySnpFetch absentOdFetch []).registry = [] := by
  refine ⟨(collect_error_iff "org-test" failedCsFetch emptySnpFetch absentOdFetch
    []).1.mpr (Or.inl ⟨"API Error", rfl⟩), ?_⟩
  have h := (collect_error_iff "org-test" emptyCsFetch emptySnpFetch absentOdFetch []).2
    (some { items := some [] }) (some { items := some [] }) none rfl rfl rfl
    (Or.inr rfl) (Or.inr rfl) (Or.inl rfl)
  exact ⟨h.1, h.2⟩

/-- C8: `collect()` only sets values for label combinations of the current
pass; any combination outside those keys — in particular one published by
a prior pass and absent now — keeps exactly its previous registry value. -/
theorem stale_labels_preserved (org : String)
    (cs : Except String (Option (ListResponse CloudSpace)))
    (snp : Except String (Option (ListResponse SpotNodePool)))
    (od : Except String (Option (ListResponse OnDemandNodePool)))
    (reg : Registry) (k : GaugeKey) (h : k ∉ collectPassKeys org cs snp od) :
    gaugeGet (collect org cs snp od reg).registry k = gaugeGet reg k := by
  simp only [collectPassKeys, List.mem_append, not_or] at h
  obtain ⟨⟨h1, h2⟩, h3⟩ := h
  show gaugeGet (commitOnDemandNodePools org od (commitSpotNodePools org snp
    (commitCloudSpaces org cs reg))) k = gaugeGet reg k
  rw [commitOnDemandNodePools_frame _ _ _ _ h3, commitSpotNodePools_frame _ _ _ _ h2,
    commitCloudSpaces_frame _ _ _ _ h1]

/-- Witness for C8: a prior-pass label combination absent from the current
pass still reads its last written value 7 after `collect()`. -/
theorem stale_labels_preserved_witness :
    oldComboKey ∉ collectPassKeys "org-test" sampleCsFetch emptySnpFetch absentOdFetch ∧
    gaugeGet (collect "org-test" sampleCsFetch emptySnpFetch absentOdFetch
      [(oldComboKey, 7)]).registry oldComboKey = some 7 := by
  refine ⟨by decide, ?_⟩
  rw [stale_labels_preserved "org-test" sampleCsFetch emptySnpFetch absentOdFetch
    [(oldComboKey, 7)] oldComboKey (by decide)]
  decide

/-- C9: each metric family is written atomically within one pass: the
value of any key of a family in the final registry is exactly its value
after that family's own all-or-nothing commit applied to the pre-pass
registry (so no torn per-item state and no interference from the other
families), and a family whose fetch rejected leaves all of its keys at
their pre-pass values. -/
theorem family_atomic_rewrite (org : String)
    (cs : Except String (Option (ListResponse CloudSpace)))
    (snp : Except String (Option (ListResponse SpotNodePool)))
    (od : Except String (Option (ListResponse OnDemandNodePool)))
    (reg : Registry) (k : GaugeKey) :
    (k.1 = "rackspace_spot_cloudspace_nodes_total" →
      gaugeGet (collect org cs snp od reg).registry k =
        gaugeGet (commitCloudSpaces org cs reg) k) ∧
    (k.1 = "rackspace_spot_spotnodepool_desired" ∨
        k.1 = "rackspace_spot_spotnodepool_won_count" →
      gaugeGet (collect org cs snp od reg).registry k =
        gaugeGet (commitSpotNodePools org snp reg) k) ∧
    (k.1 = "rackspace_spot_ondemandnodepool_desired" ∨
        k.1 = "rackspace_spot_ondemandnodepool_reserved_count" →
      gaugeGet (collect org cs snp od reg).registry k =
        gaugeGet (commitOnDemandNodePools org od reg) k) ∧
    (∀ e, cs = Except.error e →
      gaugeGet (commitCloudSpaces org cs reg) k = gaugeGet reg k) ∧
    (∀ e, snp = Except.error e →
      gaugeGet (commitSpotNodePools org snp reg) k = gaugeGet reg k) ∧
    (∀ e, od = Except.error e →
      gaugeGet (commitOnDemandNodePools org od reg) k = gaugeGet reg k) := by
  refine ⟨?_, ?_, ?_, ?_, ?_, ?_⟩
  · intro hk
    have hs1 : k.1 ≠ "rackspace_spot_spotnodepool_desired" := by rw [hk]; decide
    have hs2 : k.1 ≠ "rackspace_spot_spotnodepool_won_count" := by rw [hk]; decide
    have ho1 : k.1 ≠ "rackspace_spot_ondemandnodepool_desired" := by rw [hk]; decide
    have ho2 : k.1 ≠ "rackspace_spot_ondemandnodepool_reserved_count" := by rw [hk]; decide
    show gaugeGet (commitOnDemandNodePools org od (commitSpotNodePools org snp
      (commitCloudSpaces org cs reg))) k = _
    rw [commitOnDemandNodePools_name_frame _ _ _ _ ho1 ho2,
      commitSpotNodePools_name_frame _ _ _ _ hs1 hs2]
  · intro hk
    have hc : k.1 ≠ "rackspace_spot_cloudspace_nodes_total" := by
      rcases hk with hk | hk <;> rw [hk] <;> decide
    have ho1 : k.1 ≠ "rackspace_spot_ondemandnodepool_desired" := by
      rcases hk with hk | hk <;> rw [hk] <;> decide
    have ho2 : k.1 ≠ "rackspace_spot_ondemandnodepool_reserved_count" := by
      rcases hk with hk | hk <;> rw [hk] <;> decide
    show gaugeGet (commitOnDemandNodePools org od (commitSpotNodePools org snp
      (commitCloudSpaces org cs reg))) k = _
    rw [commitOnDemandNodePools_name_frame _ _ _ _ ho1 ho2]
    exact commitSpotNodePools_congr org snp k _ _
      (commitCloudSpaces_name_frame _ _ _ _ hc)
  · intro hk
    have hc : k.1 ≠ "rackspace_spot_cloudspace_nodes_total" := by
      rcases hk with hk | hk <;> rw [hk] <;> decide
    have hs1 : k.1 ≠ "rackspace_spot_spotnodepool_desired" := by
      rcases hk with hk | hk <;> rw [hk] <;> decide
    have hs2 : k.1 ≠ "rackspace_spot_spotnodepool_won_count" := by
      rcases hk with hk | hk <;> rw [hk] <;> decide
    show gaugeGet (commitOnDemandNodePools org od (commitSpotNodePools org snp
      (commitCloudSpaces org cs reg))) k = _
    refine commitOnDemandNodePools_congr org od k _ _ ?_
    rw [commitSpotNodePools_name_frame _ _ _ _ hs1 hs2,
      commitCloudSpaces_name_frame _ _ _ _ hc]
  · intro e he; subst he; rfl
  · intro e he; subst he; rfl
  · intro e he; subst he; rfl

/-- Witness for C9: with a rejected cloudspace fetch and a successful spot
fetch, the spot family's desired gauge reads exactly its own commit's
value 5, and the failed cloudspace family leaves the registry untouched. -/
theorem family_atomic_rewrite_witness :
    gaugeGet (collect "org-test" failedCsFetch sampleSnpFetch absentOdFetch []).registry
      (spotDesiredKey "org-test" sampleSpotNodePool) = some 5 ∧
    gaugeGet (commitCloudSpaces "org-test" failedCsFetch [(oldComboKey, 7)])
      oldComboKey = some 7 := by
  constructor
  · rw [(family_atomic_rewrite "org-test" failedCsFetch sampleSnpFetch absentOdFetch []
      (spotDesiredKey "org-test" sampleSpotNodePool)).2.1 (Or.inl rfl)]
    decide
  · rw [(family_atomic_rewrite "org-test" failedCsFetch sampleSnpFetch absentOdFetch
      [(oldComboKey, 7)] oldComboKey).2.2.2.1 "API Error" rfl]
    decide

theorem tokenIsFresh_iff (st : TokenState) (now : Int) :
    tokenIsFresh st now = true ↔
      ∃ t, st.accessToken = some t ∧ t ≠ "" ∧ now < st.tokenExpiry - 60000 := by
  cases hat : st.accessToken with
  | none => simp [tokenIsFresh, jsTruthyStr, hat]
  | some t =>
    simp [tokenIsFresh, jsTruthyStr, hat, Bool.and_eq_true, bne_iff_ne,
      decide_eq_true_eq]

/-- C3: `ensureAuthenticated` reuses the cached token without a token
exchange exactly when a (truthy) cached token exists and
`now < tokenExpiry - 60000`; after a successful exchange with
`expires_in = 86400` at `t0`, a second call within the same second
performs no exchange, while a call at or after `tokenExpiry - 60s`
performs exactly one more exchange. -/
theorem token_cache_reuse (st : TokenState) (now : Int) (result : AuthHttpResult)
    (r : OAuthTokenResponse) (t0 t1 : Int) (result2 : AuthHttpResult)
    (hexp : r.expires_in = 86400) (hid : r.id_token ≠ "") :
    (ensureAuthenticated st now result = (Except.ok st, 0) ↔
      ∃ t, st.accessToken = some t ∧ t ≠ "" ∧ now < st.tokenExpiry - 60000) ∧
    (authenticate t0 (AuthHttpResult.success r) =
      Except.ok (TokenState.mk (some r.id_token) (t0 + r.expires_in * 1000))) ∧
    (t0 ≤ t1 → t1 < t0 + 1000 →
      ensureAuthenticated (TokenState.mk (some r.id_token) (t0 + r.expires_in * 1000))
          t1 result2 =
        (Except.ok (TokenState.mk (some r.id_token) (t0 + r.expires_in * 1000)), 0)) ∧
    (t0 + r.expires_in * 1000 - 60000 ≤ t1 →
      (ensureAuthenticated (TokenState.mk (some r.id_token) (t0 + r.expires_in * 1000))
          t1 result2).2 = 1) := by
  refine ⟨?_, rfl, ?_, ?_⟩
  · constructor
    · intro h
      by_cases hf : tokenIsFresh st now
      · exact (tokenIsFresh_iff st now).mp hf
      · exfalso
        simp [ensureAuthenticated, hf] at h
    · intro h
      have hf := (tokenIsFresh_iff st now).mpr h
      simp [ensureAuthenticated, hf]
  · intro h1 h2
    have hf : tokenIsFresh (TokenState.mk (some r.id_token)
        (t0 + r.expires_in * 1000)) t1 = true := by
      refine (tokenIsFresh_iff _ _).mpr ⟨r.id_token, rfl, hid, ?_⟩
      show t1 < t0 + r.expires_in * 1000 - 60000
      rw [hexp]
      omega
    simp [ensureAuthenticated, hf]
  · intro h
    have hstale : ¬ (t1 < t0 + r.expires_in * 1000 - 60000) := by omega
    simp [ensureAuthenticated, tokenIsFresh, jsTruthyStr, hstale]

/-- Witness for C3: a cached one-day token is reused 500 ms after issuance
and exchanged again at `tokenExpiry - 60s`. -/
theorem token_cache_reuse_witness :
    ensureAuthenticated (TokenState.mk (some sampleTokenResponse.id_token)
        (1000000 + sampleTokenResponse.expires_in * 1000)) 1000500
        (AuthHttpResult.failure 500 "boom") =
      (Except.ok (TokenState.mk (some sampleTokenResponse.id_token)
        (1000000 + sampleTokenResponse.expires_in * 1000)), 0) ∧
    (ensureAuthenticated (TokenState.mk (some sampleTokenResponse.id_token)
        (1000000 + sampleTokenResponse.expires_in * 1000)) 87340000
        (AuthHttpResult.failure 500 "boom")).2 = 1 := by
  have h := token_cache_reuse TokenState.init 0 (AuthHttpResult.failure 401 "unauthorized")
    sampleTokenResponse 1000000 1000500 (AuthHttpResult.failure 500 "boom") rfl (by decide)
  have h2 := token_cache_reuse TokenState.init 0 (AuthHttpResult.failure 401 "unauthorized")
    sampleTokenResponse 1000000 87340000 (AuthHttpResult.failure 500 "boom") rfl (by decide)
  exact ⟨h.2.2.1 (by decide) (by decide), h2.2.2.2 (by decide)⟩

/-- C4: a successful token exchange stores exactly the response's
`id_token` (not `access_token`) as the bearer credential and
`now + expires_in * 1000` as the expiry; a subsequent request while that
token is fresh carries `Authorization: Bearer <id_token>`. -/
theorem id_token_is_bearer (t0 : Int) (r : OAuthTokenResponse) (t1 : Int)
    (headers : List (String × String)) (result2 : AuthHttpResult)
    (hid : r.id_token ≠ "") (hfresh : t1 < t0 + r.expires_in * 1000 - 60000) :
    authenticate t0 (AuthHttpResult.success r) =
      Except.ok (TokenState.mk (some r.id_token) (t0 + r.expires_in * 1000)) ∧
    (authMiddleware (TokenState.mk (some r.id_token) (t0 + r.expires_in * 1000))
        t1 result2 headers).1 =
      Except.ok (TokenState.mk (some r.id_token) (t0 + r.expires_in * 1000),
        setHeader headers "Authorization" ("Bearer " ++ r.id_token)) ∧
    getHeader (setHeader headers "Authorization" ("Bearer " ++ r.id_token))
      "Authorization" = some ("Bearer " ++ r.id_token) := by
  refine ⟨rfl, ?_, ?_⟩
  · have hf : tokenIsFresh (TokenState.mk (some r.id_token)
        (t0 + r.expires_in * 1000)) t1 = true :=
      (tokenIsFresh_iff _ _).mpr ⟨r.id_token, rfl, hid, hfresh⟩
    have hbne : (r.id_token != "") = true := by
      simp [bne_iff_ne]
      exact hid
    simp [authMiddleware, ensureAuthenticated, hf, hbne]
  · simp [getHeader, setHeader, List.find?_cons]

/-- Witness for C4: the sample exchange stores the id token and the header
carries it on the next request. -/
theorem id_token_is_bearer_witness :
    authenticate 1000000 (AuthHttpResult.success sampleTokenResponse) =
      Except.ok (TokenState.mk (some sampleTokenResponse.id_token)
        (1000000 + sampleTokenResponse.expires_in * 1000)) ∧
    getHeader (setHeader [] "Authorization" ("Bearer " ++ sampleTokenResponse.id_token))
      "Authorization" = some "Bearer sample-id-token" := by
  have h := id_token_is_bearer 1000000 sampleTokenResponse 1000500 []
    (AuthHttpResult.failure 500 "boom") (by decide) (by decide)
  refine ⟨h.1, ?_⟩
  rw [h.2.2]
  decide

/-- C5: a non-success token-endpoint response makes the exchange fail with
an error message carrying the phrase `Failed to authenticate`, the status
code and the body, after exactly one exchange attempt (no retry), and that
same failure propagates to all three list calls. -/
theorem auth_failure_propagates (st : TokenState) (now : Int) (s : Int) (b : String)
    (g1 : GetResult (Option (ListResponse CloudSpace)))
    (g2 : GetResult (Option (ListResponse SpotNodePool)))
    (g3 : GetResult (Option (ListResponse OnDemandNodePool)))
    (hstale : tokenIsFresh st now = false) :
    ensureAuthenticated st now (AuthHttpResult.failure s b) =
      (Except.error (authErrorMessage s b), 1) ∧
    listCloudSpaces st now (AuthHttpResult.failure s b) g1 =
      (Except.error (authErrorMessage s b), 1) ∧
    listSpotNodePools st now (AuthHttpResult.failure s b) g2 =
      (Except.error (authErrorMessage s b), 1) ∧
    listOnDemandNodePools st now (AuthHttpResult.failure s b) g3 =
      (Except.error (authErrorMessage s b), 1) ∧
    (∃ p q, authErrorMessage s b = p ++ "Failed to authenticate" ++ q) ∧
    (∃ p q, authErrorMessage s b = p ++ toString s ++ q) ∧
    (∃ p q, authErrorMessage s b = p ++ b ++ q) := by
  refine ⟨?_, ?_, ?_, ?_, ?_, ?_, ?_⟩
  · simp [ensureAuthenticated, hstale, authenticate]
  · simp [listCloudSpaces, clientGet, authMiddleware, ensureAuthenticated, hstale,
      authenticate]
  · simp [listSpotNodePools, clientGet, authMiddleware, ensureAuthenticated, hstale,
      authenticate]
  · simp [listOnDemandNodePools, clientGet, authMiddleware, ensureAuthenticated, hstale,
      authenticate]
  · refine ⟨"", ": " ++ toString s ++ " - " ++ b, ?_⟩
    have hsplit : ("Failed to authenticate: " : String) =
        "Failed to authenticate" ++ ": " := by decide
    simp only [authErrorMessage, String.append_assoc]
    rw [hsplit, String.append_assoc]
    simp
  · exact ⟨"Failed to authenticate: ", " - " ++ b, by
      simp [authErrorMessage, String.append_assoc]⟩
  · exact ⟨"Failed to authenticate: " ++ toString s ++ " - ", "", by
      simp [authErrorMessage]⟩

/-- Witness for C5: a 401 with body `unauthorized` fails `listCloudSpaces`
after a single exchange attempt with the composed message. -/
theorem auth_failure_propagates_witness :
    listCloudSpaces TokenState.init 0 (AuthHttpResult.failure 401 "unauthorized")
      (GetResult.success none) = (Except.error (authErrorMessage 401 "unauthorized"), 1) ∧
    authErrorMessage 401 "unauthorized" = "Failed to authenticate: 401 - unauthorized" := by
  have h := auth_failure_propagates TokenState.init 0 401 "unauthorized"
    (GetResult.success none) (GetResult.success none) (GetResult.success none) rfl
  exact ⟨h.2.1, by decide⟩

theorem schedulerStep_invariant (s : SchedulerState) (e : SchedulerEvent)
    (h : s.startedPasses = s.finishedPasses + (if s.isCollecting then 1 else 0)) :
    (schedulerStep s e).startedPasses =
      (schedulerStep s e).finishedPasses +
        (if (schedulerStep s e).isCollecting then 1 else 0) := by
  cases e <;> by_cases hc : s.isCollecting <;> simp [schedulerStep, hc] at h ⊢ <;> omega

theorem schedulerRun_invariant (events : List SchedulerEvent) :
    (schedulerRun events).startedPasses =
      (schedulerRun events).finishedPasses +
        (if (schedulerRun events).isCollecting then 1 else 0) := by
  suffices h : ∀ (l : List SchedulerEvent) (s : SchedulerState),
      s.startedPasses = s.finishedPasses + (if s.isCollecting then 1 else 0) →
      (l.foldl schedulerStep s).startedPasses =
        (l.foldl schedulerStep s).finishedPasses +
          (if (l.foldl schedulerStep s).isCollecting then 1 else 0) by
    exact h events SchedulerState.init (by simp [SchedulerState.init])
  intro l
  induction l with
  | nil => exact fun s hs => hs
  | cons e t ih =>
    intro s hs
    rw [List.foldl_cons]
    exact ih _ (schedulerStep_invariant s e hs)

/-- C7: when a collection pass is in flight, a timer tick is a complete
no-op — the scheduler state is unchanged, so nothing is started or queued
and the in-flight pass is untouched — and along every event sequence from
process start at most one pass is in flight at any time. -/
theorem tick_skipped_when_collecting (s : SchedulerState) (events : List SchedulerEvent)
    (h : s.isCollecting = true) :
    schedulerStep s SchedulerEvent.tick = s ∧ inFlight (schedulerRun events) ≤ 1 := by
  constructor
  · simp [schedulerStep, h]
  · have hi := schedulerRun_invariant events
    unfold inFlight
    by_cases hb : (schedulerRun events).isCollecting <;> simp [hb] at hi <;> omega

/-- Witness for C7: a tick arriving while a pass runs changes nothing, and
a run with an overlapping tick never has two passes in flight. -/
theorem tick_skipped_when_collecting_witness :
    schedulerStep (SchedulerState.mk true 1 0) SchedulerEvent.tick =
      SchedulerState.mk true 1 0 ∧
    inFlight (schedulerRun
      [SchedulerEvent.tick, SchedulerEvent.tick, SchedulerEvent.finish,
       SchedulerEvent.tick]) ≤ 1 := by
  have h := tick_skipped_when_collecting (SchedulerState.mk true 1 0)
    [SchedulerEvent.tick, SchedulerEvent.tick, SchedulerEvent.finish,
     SchedulerEvent.tick] rfl
  exact ⟨h.1, h.2⟩

end RackspaceSpotExporter
